import Mathlib

/-!
Verification of `djclsview.py` (django-clsview): a shallow embedding of the
class-based-view dispatch machinery.

Modelling choices, stated once here:

* Python values are the inductive `Val` (opaque base values such as requests
  and responses, strings, tuples, dicts).  An object's attribute store is an
  association list `Obj`; Python attribute assignment is `setAttr`
  (replace-or-append, matching dict update semantics).
* Exceptions are the `PyExc` type; fallible Python code returns
  `PyResult α = Except PyExc α`.  A raised exception is `.error e`.
* A `View` subclass is a `ViewSubclass`: an optional `__init__` override and
  an optional `__call__` override.  `none` means the method is inherited from
  `View`, i.e. the defaults at lines 184-187 and 190-191 of the source.
  Python's mutation of `self` inside `__init__` is modelled by state passing:
  the override maps the old attribute store to the new one (or raises).
* `View.__new__` returning an `HttpResponse` (a `Val`, never an attribute
  store) means Python's `type.__call__` does not invoke `__init__` on the
  returned value, so calling the class is exactly `View.__new__`.
* Classes produced by `_decorate` are the inductive `DecoratedCls`: a chain of
  `type(cls.__name__, (cls,), {'__new__': staticmethod(...)})` subclasses over
  a root `ViewSubclass`.  Such subclasses override only `__new__`; `__init__`,
  `__call__` and `_new` are inherited unchanged from the root, so the root
  `View.__new__` behaves identically whichever class of the chain is passed as
  its `cls` argument.  `DecoratedCls.newMeth c actual` is the `__new__` of `c`
  invoked with `actual` as the class argument.
* `functools.partial(method, self)` is `fixSelf method self`.  `@wraps` only
  copies metadata (`__name__`, docstring) and is semantically transparent, so
  it is not modelled.
-/

namespace DjClsView

/-- Python values: opaque base values (requests, responses, ...), strings,
tuples and string-keyed dicts. -/
inductive Val where
  | base : Nat → Val
  | str : String → Val
  | tuple : List Val → Val
  | dict : List (String × Val) → Val

/-- An object's attribute store: attribute name to value. -/
abbrev Obj := List (String × Val)

/-- Python exceptions relevant to the machinery. -/
inductive PyExc where
  | notImplementedError (msg : String)
  | typeError
  | userExc (code : Nat)
deriving DecidableEq

/-- Result of running Python code: a value or a raised exception. -/
abbrev PyResult (α : Type) := Except PyExc α

/-- Attribute assignment `obj.name = v`: replace an existing binding or
append a new one. -/
def setAttr (o : Obj) (k : String) (v : Val) : Obj :=
  match o with
  | [] => [(k, v)]
  | (k', v') :: rest => if k' = k then (k, v) :: rest else (k', v') :: setAttr rest k v

/-- Attribute lookup `obj.name`. -/
def getAttr (o : Obj) (k : String) : Option Val :=
  match o with
  | [] => none
  | (k', v') :: rest => if k' = k then some v' else getAttr rest k

/-- Positional arguments of a Python call. -/
abbrev Args := List Val

/-- Keyword arguments of a Python call. -/
abbrev KwArgs := List (String × Val)

/-- A Python function taking `(*args, **kwargs)` and returning a value or
raising. -/
abbrev Func := Args → KwArgs → PyResult Val

/-- An unbound method on receivers of type `σ`: `(self, *args, **kwargs)`. -/
abbrev MethodOn (σ : Type) := σ → Args → KwArgs → PyResult Val

/-- An instance method (receiver is an object's attribute store). -/
abbrev Method := MethodOn Obj

/-- A function decorator: maps a function to a function. -/
abbrev Decorator := Func → Func

/-- A subclass of `View`: an optional `__init__` override and an optional
`__call__` override; `none` means the default inherited from `View`. -/
structure ViewSubclass where
  initOverride : Option (Obj → Args → KwArgs → PyResult Obj)
  callOverride : Option (Obj → PyResult Val)

/-- Default `View.__init__` (source lines 184-187): store the request, the
tuple of positional arguments and the dict of keyword arguments on `self`. -/
def defaultInit (self : Obj) (request : Val) (args : Args) (kwargs : KwArgs) : Obj :=
  setAttr (setAttr (setAttr self "request" request) "args" (.tuple args)) "kwargs" (.dict kwargs)

/-- Message of the `NotImplementedError` raised by default `View.__call__`. -/
def defaultCallMsg : String := "Need to define __call__() on this view."

/-- Default `View.__call__` (source lines 190-191): always raises
`NotImplementedError`. -/
def defaultCall (_self : Obj) : PyResult Val :=
  .error (.notImplementedError defaultCallMsg)

/-- Run `instance.__init__(*args, **kwargs)` for class `cls`: the override if
present, otherwise the inherited default (which requires a positional
`request`; calling it without one is a `TypeError`). -/
def runInit (cls : ViewSubclass) (self : Obj) (args : Args) (kwargs : KwArgs) : PyResult Obj :=
  match cls.initOverride with
  | some f => f self args kwargs
  | none =>
    match args with
    | request :: rest => .ok (defaultInit self request rest kwargs)
    | [] => .error .typeError

/-- Run `instance.__call__()` for class `cls`: the override if present,
otherwise the inherited default. -/
def runCall (cls : ViewSubclass) (self : Obj) : PyResult Val :=
  match cls.callOverride with
  | some f => f self
  | none => defaultCall self

/-- The blank object produced by `object.__new__(cls)`: no attributes yet. -/
def freshObj : Obj := []

/-- `View._new(cls, *args, **kwargs)` (source lines 121-135): create a blank
instance with `object.__new__(cls)` and run `__init__` on it (the
`isinstance(instance, cls)` guard is always true there). -/
def View._new (cls : ViewSubclass) (args : Args) (kwargs : KwArgs) : PyResult Obj :=
  runInit cls freshObj args kwargs

/-- `View.__new__(cls, request, *args, **kwargs)` (source lines 117-119):
`instance = cls._new(request, *args, **kwargs); return instance()`. -/
def View.new (cls : ViewSubclass) (request : Val) (args : Args) (kwargs : KwArgs) : PyResult Val :=
  (View._new cls (request :: args) kwargs).bind (runCall cls)

/-- Calling the class, `ViewClass(request, *args, **kwargs)`: Python's
`type.__call__` invokes `cls.__new__`; the returned response is not an
instance of `cls`, so `__init__` is not invoked on it. -/
def classCall (cls : ViewSubclass) (request : Val) (args : Args) (kwargs : KwArgs) : PyResult Val :=
  View.new cls request args kwargs

/-- `functools.partial(method, self)`: fix the receiver as the first
argument, leaving a plain function. -/
def fixSelf {σ : Type} (m : MethodOn σ) (self : σ) : Func :=
  fun args kwargs => m self args kwargs

/-- `method_decorator(decorator)` (source lines 263-269): adapt a function
decorator to a method decorator; the returned method runs
`decorator(partial(method, self))(*args, **kwargs)`. -/
def method_decorator {σ : Type} (d : Decorator) (m : MethodOn σ) : MethodOn σ :=
  fun self args kwargs => d (fixSelf m self) args kwargs

/-- `View.__new__` of a root class, as the plain function a decorator sees:
`(cls-bound) __new__(request, *args, **kwargs)`.  Called with no positional
argument it is a `TypeError` (missing `request`). -/
def View.newAsFunc (cls : ViewSubclass) : Func :=
  fun args kwargs =>
    match args with
    | request :: rest => View.new cls request rest kwargs
    | [] => .error .typeError

/-- A class in a `_decorate` chain: either a root `View` subclass, or a
subclass created by one loop iteration of `_decorate` (source lines 177-180),
which overrides only `__new__`. -/
inductive DecoratedCls where
  | root (name : String) (cls : ViewSubclass)
  | derived (d : Decorator) (parent : DecoratedCls)

/-- The `__name__` of a class in a `_decorate` chain: `type(cls.__name__, ...)`
copies the parent's name. -/
def DecoratedCls.clsName : DecoratedCls → String
  | .root n _ => n
  | .derived _ p => p.clsName

/-- How many `_decorate` subclassing steps lie above the root. -/
def DecoratedCls.depth : DecoratedCls → Nat
  | .root _ _ => 0
  | .derived _ p => p.depth + 1

/-- The strict superclass chain of a class (its parent, grandparent, ...). -/
def DecoratedCls.ancestors : DecoratedCls → List DecoratedCls
  | .root _ _ => []
  | .derived _ p => p :: p.ancestors

/-- The `__new__` of class `c` invoked with `actual` as the class argument.
A derived class's `__new__` is `staticmethod(method_decorator(d)(parent.__new__))`,
so called as `D(request, ...)` it binds `self := actual` and runs
`d(partial(parent.__new__, actual))(request, ...)`.  The root's `__new__` uses
its class argument only through `_new`, i.e. through `__init__`/`__call__`,
which every class of the chain inherits unchanged from the root. -/
def DecoratedCls.newMeth : DecoratedCls → MethodOn DecoratedCls
  | .root _ cls => fun _actual => View.newAsFunc cls
  | .derived d p => method_decorator d p.newMeth

/-- Calling a class of a `_decorate` chain: `type.__call__` invokes the
class's own `__new__` with the class itself as first argument; the response is
not an instance, so `__init__` is skipped. -/
def DecoratedCls.call (c : DecoratedCls) (request : Val) (args : Args) (kwargs : KwArgs) : PyResult Val :=
  c.newMeth c (request :: args) kwargs

/-- `View._decorate(*decorators)` (source lines 137-181): for each decorator,
in reverse order, wrap the current class in a fresh subclass whose `__new__`
is the decorated previous `__new__`; with no decorators the class itself is
returned. -/
def View._decorate (c : DecoratedCls) (decorators : List Decorator) : DecoratedCls :=
  decorators.reverse.foldl (fun acc d => .derived d acc) c

/-! ### Heap-instrumented dispatch

To state frame properties (what the machinery writes), the same dispatch is
run over an explicit heap of objects.  `object.__new__(cls)` allocates a blank
object at a fresh address; `__init__` may rewrite only that object's
attribute store; nothing else of the heap — and no class- or module-level
state, of which the machinery has none to thread — is touched. -/

/-- A heap of allocated objects; the address of an object is its index. -/
structure Heap where
  objs : List Obj

/-- Allocate a blank object at a fresh address. -/
def Heap.alloc (h : Heap) : Heap × Nat :=
  (⟨h.objs ++ [freshObj]⟩, h.objs.length)

/-- Overwrite the object at address `i`. -/
def Heap.write (h : Heap) (i : Nat) (o : Obj) : Heap :=
  ⟨h.objs.set i o⟩

/-- Read the object at address `i`. -/
def Heap.read (h : Heap) (i : Nat) : Obj :=
  h.objs.getD i freshObj

/-- `View._new` over the heap: allocate a blank instance, run `__init__` on
it, and store the updated attribute store back at the instance's address. -/
def View.newInstanceH (cls : ViewSubclass) (h : Heap) (args : Args) (kwargs : KwArgs) :
    PyResult (Heap × Nat) :=
  let (h1, i) := h.alloc
  (runInit cls (h1.read i) args kwargs).map (fun o => (h1.write i o, i))

/-- Calling the class over the heap: `View.__new__` creates the instance via
`_new` and returns the result of calling it. -/
def classCallH (cls : ViewSubclass) (h : Heap) (request : Val) (args : Args) (kwargs : KwArgs) :
    PyResult (Heap × Val) :=
  match View.newInstanceH cls h (request :: args) kwargs with
  | .error e => .error e
  | .ok (h1, i) => (runCall cls (h1.read i)).map (fun r => (h1, r))

/-! ### Concrete views used as witnesses -/

/-- A view keeping the default `__init__` and answering with its stored
request, like `MyView` of the source's doctest. -/
def echoView : ViewSubclass :=
  { initOverride := none
  , callOverride := some (fun self =>
      match getAttr self "request" with
      | some r => .ok r
      | none => .error .typeError) }

/-- A view whose `__init__` override raises. -/
def raisingInitView : ViewSubclass :=
  { initOverride := some (fun _ _ _ => .error (.userExc 3))
  , callOverride := some (fun _ => .ok (.base 0)) }

/-- A view overriding neither `__init__` nor `__call__`. -/
def plainView : ViewSubclass :=
  { initOverride := none
  , callOverride := none }

/-- The identity decorator, used as a concrete decorator in witnesses. -/
def idDecorator : Decorator := fun f => f

/-! ### Helper lemmas -/

theorem getD_append_self {α : Type} (l : List α) (x d : α) :
    (l ++ [x]).getD l.length d = x := by
  simp [List.getD]

theorem getD_append_lt {α : Type} (l l₂ : List α) (j : Nat) (d : α) (hj : j < l.length) :
    (l ++ l₂).getD j d = l.getD j d := by
  induction l generalizing j with
  | nil => exact absurd hj (Nat.not_lt_zero j)
  | cons a t ih =>
    cases j with
    | zero => rfl
    | succ j => simpa [List.getD] using ih j (Nat.lt_of_succ_lt_succ hj)

theorem set_append_len {α : Type} (l : List α) (x a : α) :
    (l ++ [x]).set l.length a = l ++ [a] := by
  induction l with
  | nil => rfl
  | cons b t ih => simp [List.set, ih]

theorem decorate_eq_foldr (c : DecoratedCls) (ds : List Decorator) :
    View._decorate c ds = ds.foldr (fun d acc => .derived d acc) c := by
  simp [View._decorate, List.foldl_reverse]

theorem newMeth_derived (d : Decorator) (p : DecoratedCls) (actual : DecoratedCls) :
    (DecoratedCls.derived d p).newMeth actual = d (p.newMeth actual) := rfl

theorem newMeth_foldr (ds : List Decorator) (c actual : DecoratedCls) :
    ((ds.foldr (fun d acc => DecoratedCls.derived d acc) c)).newMeth actual
      = ds.foldr (fun d f => d f) (c.newMeth actual) := by
  induction ds with
  | nil => rfl
  | cons d ds ih => simp [List.foldr_cons, newMeth_derived, ih]

theorem clsName_foldr (ds : List Decorator) (c : DecoratedCls) :
    ((ds.foldr (fun d acc => DecoratedCls.derived d acc) c)).clsName = c.clsName := by
  induction ds with
  | nil => rfl
  | cons d ds ih => simp [DecoratedCls.clsName] at ih ⊢; exact ih

theorem depth_foldr (ds : List Decorator) (c : DecoratedCls) :
    ((ds.foldr (fun d acc => DecoratedCls.derived d acc) c)).depth = c.depth + ds.length := by
  induction ds with
  | nil => rfl
  | cons d ds ih => simp [DecoratedCls.depth, ih]; omega

theorem mem_ancestors_foldr (ds : List Decorator) (d : Decorator) (c : DecoratedCls) :
    c ∈ (((d :: ds).foldr (fun g acc => DecoratedCls.derived g acc) c)).ancestors := by
  induction ds generalizing d with
  | nil => exact List.mem_cons_self _ _
  | cons d' ds ih =>
    exact List.mem_cons_of_mem _ (ih d')

/-! ### Claim theorems -/

/-- C1: calling a `View` subclass as `ViewClass(request, *args, **kwargs)`
creates an instance exactly as `ViewClass._new(request, *args, **kwargs)`
does, and returns exactly the value of invoking that instance's `__call__()`
with no arguments; the whole request-handling cycle happens inside the single
instantiation expression `classCall`. -/
theorem C1_class_call_is_new_then_call (cls : ViewSubclass) (request : Val)
    (args : Args) (kwargs : KwArgs) (inst : Obj)
    (h : View._new cls (request :: args) kwargs = .ok inst) :
    classCall cls request args kwargs = runCall cls inst := by
  simp [classCall, View.new, h, Except.bind]

/-- Witness for C1 at the concrete `echoView` class. -/
theorem C1_class_call_is_new_then_call_witness :
    View._new echoView [Val.base 7] []
        = .ok [("request", Val.base 7), ("args", Val.tuple []), ("kwargs", Val.dict [])]
      ∧ classCall echoView (Val.base 7) [] []
        = runCall echoView [("request", Val.base 7), ("args", Val.tuple []), ("kwargs", Val.dict [])] :=
  ⟨rfl, C1_class_call_is_new_then_call echoView (Val.base 7) [] [] _ rfl⟩

/-- C2: `method_decorator(d)(m)` invoked as a method on `self` with
`(*args, **kwargs)` returns exactly `d(partial(m, self))(*args, **kwargs)`,
where `partial(m, self)` (here `fixSelf m self`) is the plain function
obtained by fixing `self` as `m`'s first argument. -/
theorem C2_method_decorator_adapts (d : Decorator) (m : Method) (self : Obj)
    (args : Args) (kwargs : KwArgs) :
    method_decorator d m self args kwargs = d (fixSelf m self) args kwargs
      ∧ fixSelf m self args kwargs = m self args kwargs :=
  ⟨rfl, rfl⟩

/-- C4: for a subclass that keeps the default `__init__`, the initialization
phase of `ViewClass(request, *args, **kwargs)` produces an instance whose
attribute store is exactly `request`, `args` (as a tuple) and `kwargs` (as a
dict), in that order, and nothing else: the blank instance gains precisely
these three attributes. -/
theorem C4_default_init_stores_exactly_request_args_kwargs (cls : ViewSubclass)
    (request : Val) (args : Args) (kwargs : KwArgs)
    (h : cls.initOverride = none) :
    View._new cls (request :: args) kwargs
      = .ok [("request", request), ("args", Val.tuple args), ("kwargs", Val.dict kwargs)] := by
  simp only [View._new, runInit, h]
  rfl

/-- Witness for C4 at the concrete `plainView` class. -/
theorem C4_default_init_stores_exactly_request_args_kwargs_witness :
    plainView.initOverride = none
      ∧ View._new plainView [Val.base 7, Val.base 1] [("k", Val.base 2)]
        = .ok [("request", Val.base 7), ("args", Val.tuple [Val.base 1]),
               ("kwargs", Val.dict [("k", Val.base 2)])] :=
  ⟨rfl, C4_default_init_stores_exactly_request_args_kwargs plainView (Val.base 7)
    [Val.base 1] [("k", Val.base 2)] rfl⟩

/-- C5: an exception raised by `__init__` or by `__call__` during
`ViewClass(request, *args, **kwargs)` propagates unchanged to the caller: the
dispatch machinery neither catches it, nor retries, nor substitutes a
response. -/
theorem C5_exceptions_propagate_unchanged (cls : ViewSubclass) (request : Val)
    (args : Args) (kwargs : KwArgs) (e : PyExc) :
    (View._new cls (request :: args) kwargs = .error e →
        classCall cls request args kwargs = .error e)
      ∧ ∀ inst, View._new cls (request :: args) kwargs = .ok inst →
          runCall cls inst = .error e →
          classCall cls request args kwargs = .error e := by
  constructor
  · intro h
    simp [classCall, View.new, h, Except.bind]
  · intro inst h h'
    simp [classCall, View.new, h, h', Except.bind]

/-- Witness for C5 at the concrete `raisingInitView` class. -/
theorem C5_exceptions_propagate_unchanged_witness :
    View._new raisingInitView [Val.base 0] [] = .error (.userExc 3)
      ∧ classCall raisingInitView (Val.base 0) [] [] = .error (.userExc 3) :=
  ⟨rfl, (C5_exceptions_propagate_unchanged raisingInitView (Val.base 0) [] [] (.userExc 3)).1 rfl⟩

/-- C6: on every instance of a subclass that does not override `__call__`,
invoking `__call__()` raises `NotImplementedError`; hence calling such a
class as a view, whenever initialization yields an instance, fails with
`NotImplementedError` rather than returning a response. -/
theorem C6_default_call_raises_not_implemented (cls : ViewSubclass)
    (h : cls.callOverride = none) :
    (∀ inst : Obj, runCall cls inst = .error (.notImplementedError defaultCallMsg))
      ∧ ∀ (request : Val) (args : Args) (kwargs : KwArgs) (inst : Obj),
          View._new cls (request :: args) kwargs = .ok inst →
          classCall cls request args kwargs = .error (.notImplementedError defaultCallMsg) := by
  constructor
  · intro inst
    simp [runCall, h, defaultCall]
  · intro request args kwargs inst hnew
    simp [classCall, View.new, hnew, Except.bind, runCall, h, defaultCall]

/-- Witness for C6 at the concrete `plainView` class. -/
theorem C6_default_call_raises_not_implemented_witness :
    plainView.callOverride = none
      ∧ runCall plainView [] = .error (.notImplementedError defaultCallMsg)
      ∧ classCall plainView (Val.base 0) [] [] = .error (.notImplementedError defaultCallMsg) :=
  ⟨rfl, (C6_default_call_raises_not_implemented plainView rfl).1 [],
    (C6_default_call_raises_not_implemented plainView rfl).2 (Val.base 0) [] [] _ rfl⟩

/-- C7: dispatch is deterministic: the response of
`ViewClass(request, *args, **kwargs)` is a function of the class's
`__init__`/`__call__` behaviour and the arguments alone, so two invocations
with equal methods and equal arguments return equal responses. -/
theorem C7_dispatch_deterministic (cls₁ cls₂ : ViewSubclass) (request : Val)
    (args : Args) (kwargs : KwArgs)
    (hi : cls₁.initOverride = cls₂.initOverride)
    (hc : cls₁.callOverride = cls₂.callOverride) :
    classCall cls₁ request args kwargs = classCall cls₂ request args kwargs := by
  obtain ⟨i₁, c₁⟩ := cls₁
  obtain ⟨i₂, c₂⟩ := cls₂
  simp only at hi hc
  subst hi
  subst hc
  rfl

/-- Witness for C7 at the concrete `echoView` class. -/
theorem C7_dispatch_deterministic_witness :
    echoView.initOverride = echoView.initOverride
      ∧ classCall echoView (Val.base 1) [] [] = classCall echoView (Val.base 1) [] [] :=
  ⟨rfl, C7_dispatch_deterministic echoView echoView (Val.base 1) [] [] rfl rfl⟩

/-- C3: calling the class returned by `cls._decorate(d1, ..., dn)` (at least
one decorator) with `(request, *args, **kwargs)` applies the decorators in
standard stacking order, `d1` outermost and `dn` innermost, around the
original class's request-handling behaviour: it returns
`d1(d2(...dn(view)...))(request, *args, **kwargs)` where `view` is the
class-bound `__new__` of the original class, i.e. its ordinary dispatch. -/
theorem C3_decorate_stacks_decorators_in_order (name : String) (cls : ViewSubclass)
    (d : Decorator) (ds : List Decorator) (request : Val) (args : Args) (kwargs : KwArgs) :
    (View._decorate (.root name cls) (d :: ds)).call request args kwargs
        = ((d :: ds).foldr (fun g f => g f) (View.newAsFunc cls)) (request :: args) kwargs
      ∧ View.newAsFunc cls (request :: args) kwargs = classCall cls request args kwargs := by
  refine ⟨?_, rfl⟩
  simp only [DecoratedCls.call, decorate_eq_foldr, newMeth_foldr]
  rfl

/-- C9: `_decorate` never mutates the class it is called on: with zero
decorators it returns the class itself unchanged, and with at least one
decorator it returns a class distinct from the original, bearing the same
`__name__`, with the original among its superclass chain; the original class,
being untouched, behaves afterwards exactly as before. -/
theorem C9_decorate_returns_fresh_subclass (c : DecoratedCls) (d : Decorator)
    (ds : List Decorator) :
    View._decorate c [] = c
      ∧ (View._decorate c (d :: ds)).clsName = c.clsName
      ∧ View._decorate c (d :: ds) ≠ c
      ∧ c ∈ (View._decorate c (d :: ds)).ancestors := by
  refine ⟨rfl, ?_, ?_, ?_⟩
  · rw [decorate_eq_foldr]
    exact clsName_foldr (d :: ds) c
  · intro hEq
    have hd : (View._decorate c (d :: ds)).depth = c.depth + (ds.length + 1) := by
      rw [decorate_eq_foldr]
      simpa using depth_foldr (d :: ds) c
    rw [hEq] at hd
    omega
  · rw [decorate_eq_foldr]
    exact mem_ancestors_foldr ds d c

/-- Witness for C9 at a concrete root class and the identity decorator. -/
theorem C9_decorate_returns_fresh_subclass_witness :
    View._decorate (.root "X" plainView) [] = .root "X" plainView
      ∧ (View._decorate (.root "X" plainView) [idDecorator]).clsName = "X"
      ∧ DecoratedCls.root "X" plainView
          ∈ (View._decorate (.root "X" plainView) [idDecorator]).ancestors :=
  ⟨(C9_decorate_returns_fresh_subclass (.root "X" plainView) idDecorator []).1,
   (C9_decorate_returns_fresh_subclass (.root "X" plainView) idDecorator []).2.1,
   (C9_decorate_returns_fresh_subclass (.root "X" plainView) idDecorator []).2.2.2⟩

/-- C8: every invocation of `ViewClass(request, *args, **kwargs)` operates on
a freshly allocated instance: the address is fresh, the instance store grows
by exactly that one object, every previously allocated object is left
unchanged, and the response is independent of the prior heap (it coincides
with the heap-free dispatch), so no attribute stored during one invocation
can influence any other invocation. -/
theorem C8_dispatch_touches_only_fresh_instance (cls : ViewSubclass) (h : Heap)
    (request : Val) (args : Args) (kwargs : KwArgs) :
    (∀ (h' : Heap) (i : Nat),
        View.newInstanceH cls h (request :: args) kwargs = .ok (h', i) →
          i = h.objs.length
            ∧ h'.objs.length = h.objs.length + 1
            ∧ ∀ j, j < h.objs.length → h'.read j = h.read j)
      ∧ (classCallH cls h request args kwargs).map Prod.snd
          = classCall cls request args kwargs := by
  have hread : (Heap.mk (h.objs ++ [freshObj])).read h.objs.length = freshObj :=
    getD_append_self h.objs freshObj freshObj
  cases hini : runInit cls freshObj (request :: args) kwargs with
  | error e =>
    constructor
    · intro h' i hok
      simp [View.newInstanceH, Heap.alloc, hread, hini, Except.map] at hok
    · simp [classCallH, View.newInstanceH, Heap.alloc, hread, hini,
        classCall, View.new, View._new, Except.bind, Except.map]
  | ok o =>
    have hwrite : (Heap.mk (h.objs ++ [freshObj])).write h.objs.length o
        = Heap.mk (h.objs ++ [o]) := by
      simp [Heap.write, set_append_len]
    constructor
    · intro h' i hok
      simp [View.newInstanceH, Heap.alloc, hread, hini, Except.map, hwrite] at hok
      obtain ⟨hh', hi⟩ := hok
      refine ⟨hi.symm, ?_, ?_⟩
      · rw [← hh']
        simp
      · intro j hj
        rw [← hh']
        exact getD_append_lt h.objs [o] j freshObj hj
    · have hread2 : (Heap.mk (h.objs ++ [o])).read h.objs.length = o :=
        getD_append_self h.objs o freshObj
      cases hcall : runCall cls o with
      | error e =>
        simp [classCallH, View.newInstanceH, Heap.alloc, hread, hini, Except.map, hwrite,
          hread2, hcall, classCall, View.new, View._new, Except.bind]
      | ok r =>
        simp [classCallH, View.newInstanceH, Heap.alloc, hread, hini, Except.map, hwrite,
          hread2, hcall, classCall, View.new, View._new, Except.bind]

/-- Witness for C8 at the concrete `echoView` class over a one-object heap. -/
theorem C8_dispatch_touches_only_fresh_instance_witness :
    View.newInstanceH echoView ⟨[[("x", Val.base 1)]]⟩ [Val.base 7] []
        = .ok (⟨[[("x", Val.base 1)],
                 [("request", Val.base 7), ("args", Val.tuple []), ("kwargs", Val.dict [])]]⟩, 1)
      ∧ (Heap.mk [[("x", Val.base 1)],
            [("request", Val.base 7), ("args", Val.tuple []), ("kwargs", Val.dict [])]]).read 0
          = (Heap.mk [[("x", Val.base 1)]]).read 0 :=
  ⟨rfl, ((C8_dispatch_touches_only_fresh_instance echoView ⟨[[("x", Val.base 1)]]⟩
      (Val.base 7) [] []).1 _ 1 rfl).2.2 0 (by decide)⟩

end DjClsView
